import Mathlib

/-!
Verification of the voxblox ROS node front-end
(`voxblox_ros/src/voxblox_node.cc`).

The file shallowly embeds the three member functions of `VoxbloxNode`:

* `lookupTransform` (the pose resolver): availability check at the exact
  timestamp, fallback to the `ros::Time(0)` "latest" sentinel with a
  warning, a single `lookupTransform` call on the TF listener guarded by
  a try/catch that converts exceptions into a `false` return, and the
  out-parameter written only on success.
* `publishMarkers` (the map exporter): `CHECK(tsdf_map_)`, then a
  traversal of all allocated blocks and all voxel linear indices,
  emitting one point per voxel with intensity = stored distance.
* `insertPointcloudWithTf`: pose resolution for an incoming cloud; the
  integrator call is commented out in the source, so nothing is changed.

The voxblox core map types (`TsdfMap`, `TsdfBlock`, `voxblox/core/map.h`)
are not part of the excerpt; their accessors are modelled from the spec
and marked as such.  ROS timestamps are modelled as `Nat` with `0` the
"latest available" sentinel (`ros::Time(0)`), and scalar values as `ℚ`.
-/

namespace Voxblox

/-- A rigid transform (modelled as rotation quaternion + translation,
matching minkindr's `Transformation`; the resolver only moves these
values around, never computes with them). -/
structure Transformation where
  qx : ℚ
  qy : ℚ
  qz : ℚ
  qw : ℚ
  tx : ℚ
  ty : ℚ
  tz : ℚ
deriving DecidableEq, Inhabited

/-- Modelled from the spec: the minkindr `tf::transformTFToKindr`
conversion is value-preserving (the spec requires `resolve` to return
"that exact transform" / "the latest transform" the provider supplied);
its source is external to the repository. -/
def transformTFToKindr (t : Transformation) : Transformation := t

/-- A log event emitted via `ROS_WARN` / `ROS_ERROR_STREAM`. -/
inductive LogEvent where
  | rosWarn (msg : String)
  | rosError (msg : String)
deriving DecidableEq

/-- The degraded-mode signal: the exact `ROS_WARN` text at
`voxblox_node.cc:139`. -/
def degradedWarning : LogEvent :=
  LogEvent.rosWarn "Using latest TF transform instead of timestamp match."

/-- One interaction with the TF listener (the external transform
provider): either an availability check (`canTransform`) or an actual
lookup (`lookupTransform`). -/
inductive TfQuery where
  | canQuery (target source : String) (time : Nat)
  | lookupQuery (target source : String) (time : Nat)
deriving DecidableEq

/-- The external transform provider (`tf::TransformListener`): a pure
snapshot of its `canTransform` answer and of `lookupTransform`, which
either yields a transform or throws (`Except.error` carries the
diagnostic text of the `tf::TransformException`). -/
structure TfProvider where
  canTransform : String → String → Nat → Bool
  lookupTransform : String → String → Nat → Except String Transformation

/-- Everything observable about one `VoxbloxNode::lookupTransform` call:
the boolean return value, the final value of the `Transformation*`
out-parameter, the emitted log events, and the queries made against the
TF listener, in order. -/
structure ResolveResult where
  success : Bool
  transform : Transformation
  log : List LogEvent
  queries : List TfQuery
deriving DecidableEq

/-- The resolver `VoxbloxNode::lookupTransform` (voxblox_node.cc:126-153).  `pre` is
the value the caller's `Transformation` out-parameter holds before the
call; the field `transform` of the result is its value after the call. -/
def lookupTransform (listener : TfProvider) (from_frame to_frame : String)
    (timestamp : Nat) (pre : Transformation) : ResolveResult :=
  let time_to_lookup := timestamp
  -- If this transform isn't possible at the time, then try to just look
  -- up the latest (voxblox_node.cc:137-140).
  let can := listener.canTransform to_frame from_frame time_to_lookup
  let time_to_lookup := if can then time_to_lookup else 0
  let warnLog : List LogEvent := if can then [] else [degradedWarning]
  match listener.lookupTransform to_frame from_frame time_to_lookup with
  | Except.ok tf_transform =>
      { success := true
        transform := transformTFToKindr tf_transform
        log := warnLog
        queries := [TfQuery.canQuery to_frame from_frame timestamp,
                    TfQuery.lookupQuery to_frame from_frame time_to_lookup] }
  | Except.error ex =>
      { success := false
        transform := pre
        log := warnLog ++
          [LogEvent.rosError ("Error getting TF transform from sensor data: " ++ ex)]
        queries := [TfQuery.canQuery to_frame from_frame timestamp,
                    TfQuery.lookupQuery to_frame from_frame time_to_lookup] }

/-- C1: if the provider reports the transform unavailable at the exact
timestamp but the lookup at the "latest" sentinel succeeds, `resolve`
returns the latest transform, emits the degraded-mode warning exactly
once, and performs exactly one availability check followed by exactly
one (retry) lookup at the sentinel — no further retries. -/
theorem resolve_fallback_latest (listener : TfProvider)
    (from_frame to_frame : String) (timestamp : Nat)
    (pre T : Transformation)
    (hcan : listener.canTransform to_frame from_frame timestamp = false)
    (hlk : listener.lookupTransform to_frame from_frame 0 = Except.ok T) :
    (lookupTransform listener from_frame to_frame timestamp pre).success = true ∧
    (lookupTransform listener from_frame to_frame timestamp pre).transform = T ∧
    (lookupTransform listener from_frame to_frame timestamp pre).log.count degradedWarning = 1 ∧
    (lookupTransform listener from_frame to_frame timestamp pre).queries =
      [TfQuery.canQuery to_frame from_frame timestamp,
       TfQuery.lookupQuery to_frame from_frame 0] := by
  simp [lookupTransform, hcan, hlk, transformTFToKindr]

/-- A provider that cannot resolve any exact timestamp but holds a
transform for the "latest" sentinel; used to witness C1. -/
def fallbackListener : TfProvider where
  canTransform := fun _ _ _ => false
  lookupTransform := fun _ _ t =>
    if t = 0 then Except.ok { qx := 0, qy := 0, qz := 0, qw := 1, tx := 1, ty := 2, tz := 3 }
    else Except.error "Lookup would require extrapolation into the past."

theorem resolve_fallback_latest_witness :
    (fallbackListener.canTransform "world" "sensor" 7 = false ∧
     fallbackListener.lookupTransform "world" "sensor" 0 =
       Except.ok { qx := 0, qy := 0, qz := 0, qw := 1, tx := 1, ty := 2, tz := 3 }) ∧
    ((lookupTransform fallbackListener "sensor" "world" 7 default).success = true ∧
     (lookupTransform fallbackListener "sensor" "world" 7 default).transform =
       { qx := 0, qy := 0, qz := 0, qw := 1, tx := 1, ty := 2, tz := 3 } ∧
     (lookupTransform fallbackListener "sensor" "world" 7 default).log.count degradedWarning = 1 ∧
     (lookupTransform fallbackListener "sensor" "world" 7 default).queries =
       [TfQuery.canQuery "world" "sensor" 7, TfQuery.lookupQuery "world" "sensor" 0]) :=
  ⟨⟨rfl, rfl⟩,
   resolve_fallback_latest fallbackListener "sensor" "world" 7 default
     { qx := 0, qy := 0, qz := 0, qw := 1, tx := 1, ty := 2, tz := 3 } rfl rfl⟩

/-- C2: when the (single) performed lookup raises, the call returns an
explicit failure outcome whose log carries the provider's diagnostic
message, no exception escapes (the function is total and returns), and
at most two queries are made against the provider. -/
theorem resolve_failure_outcome (listener : TfProvider)
    (from_frame to_frame : String) (timestamp : Nat)
    (pre : Transformation) (msg : String)
    (hlk : listener.lookupTransform to_frame from_frame
        (if listener.canTransform to_frame from_frame timestamp then timestamp else 0) =
        Except.error msg) :
    (lookupTransform listener from_frame to_frame timestamp pre).success = false ∧
    LogEvent.rosError ("Error getting TF transform from sensor data: " ++ msg) ∈
      (lookupTransform listener from_frame to_frame timestamp pre).log ∧
    (lookupTransform listener from_frame to_frame timestamp pre).queries.length ≤ 2 := by
  cases hcan : listener.canTransform to_frame from_frame timestamp <;>
    simp [hcan] at hlk <;> simp [lookupTransform, hcan, hlk]

/-- A provider that can resolve nothing at all; used to witness C2. -/
def deadListener : TfProvider where
  canTransform := fun _ _ _ => false
  lookupTransform := fun _ _ _ => Except.error "frame does not exist"

theorem resolve_failure_outcome_witness :
    (deadListener.lookupTransform "world" "sensor"
       (if deadListener.canTransform "world" "sensor" 7 then 7 else 0) =
       Except.error "frame does not exist") ∧
    ((lookupTransform deadListener "sensor" "world" 7 default).success = false ∧
     LogEvent.rosError ("Error getting TF transform from sensor data: " ++ "frame does not exist") ∈
       (lookupTransform deadListener "sensor" "world" 7 default).log ∧
     (lookupTransform deadListener "sensor" "world" 7 default).queries.length ≤ 2) :=
  ⟨rfl, resolve_failure_outcome deadListener "sensor" "world" 7 default
    "frame does not exist" rfl⟩

/-- C3: when the provider can resolve the exact requested timestamp, the
lookup is performed at that exact timestamp, its transform is returned,
and the degraded-mode warning is never emitted. -/
theorem resolve_exact_timestamp (listener : TfProvider)
    (from_frame to_frame : String) (timestamp : Nat)
    (pre T : Transformation)
    (hcan : listener.canTransform to_frame from_frame timestamp = true)
    (hlk : listener.lookupTransform to_frame from_frame timestamp = Except.ok T) :
    (lookupTransform listener from_frame to_frame timestamp pre).success = true ∧
    (lookupTransform listener from_frame to_frame timestamp pre).transform = T ∧
    degradedWarning ∉ (lookupTransform listener from_frame to_frame timestamp pre).log ∧
    (lookupTransform listener from_frame to_frame timestamp pre).queries =
      [TfQuery.canQuery to_frame from_frame timestamp,
       TfQuery.lookupQuery to_frame from_frame timestamp] := by
  simp [lookupTransform, hcan, hlk, transformTFToKindr]

/-- A provider that resolves every timestamp to a fixed transform; used
to witness C3. -/
def exactListener : TfProvider where
  canTransform := fun _ _ _ => true
  lookupTransform := fun _ _ _ =>
    Except.ok { qx := 0, qy := 0, qz := 0, qw := 1, tx := 4, ty := 5, tz := 6 }

theorem resolve_exact_timestamp_witness :
    (exactListener.canTransform "world" "sensor" 9 = true ∧
     exactListener.lookupTransform "world" "sensor" 9 =
       Except.ok { qx := 0, qy := 0, qz := 0, qw := 1, tx := 4, ty := 5, tz := 6 }) ∧
    ((lookupTransform exactListener "sensor" "world" 9 default).success = true ∧
     (lookupTransform exactListener "sensor" "world" 9 default).transform =
       { qx := 0, qy := 0, qz := 0, qw := 1, tx := 4, ty := 5, tz := 6 } ∧
     degradedWarning ∉ (lookupTransform exactListener "sensor" "world" 9 default).log ∧
     (lookupTransform exactListener "sensor" "world" 9 default).queries =
       [TfQuery.canQuery "world" "sensor" 9, TfQuery.lookupQuery "world" "sensor" 9]) :=
  ⟨⟨rfl, rfl⟩,
   resolve_exact_timestamp exactListener "sensor" "world" 9 default
     { qx := 0, qy := 0, qz := 0, qw := 1, tx := 4, ty := 5, tz := 6 } rfl rfl⟩

/-- C9: on failure the out-parameter is untouched — the resolver writes
the caller's `Transformation` only on the success path, so a failing
call leaves exactly the pre-call value. -/
theorem resolve_failure_preserves_output (listener : TfProvider)
    (from_frame to_frame : String) (timestamp : Nat) (pre : Transformation)
    (hfail : (lookupTransform listener from_frame to_frame timestamp pre).success = false) :
    (lookupTransform listener from_frame to_frame timestamp pre).transform = pre := by
  cases hl : listener.lookupTransform to_frame from_frame
      (if listener.canTransform to_frame from_frame timestamp then timestamp else 0) with
  | ok t => simp [lookupTransform, hl] at hfail
  | error e => simp [lookupTransform, hl]

theorem resolve_failure_preserves_output_witness :
    ((lookupTransform deadListener "cam" "world" 3
        { qx := 1, qy := 0, qz := 0, qw := 0, tx := 8, ty := 8, tz := 8 }).success = false) ∧
    (lookupTransform deadListener "cam" "world" 3
        { qx := 1, qy := 0, qz := 0, qw := 0, tx := 8, ty := 8, tz := 8 }).transform =
      { qx := 1, qy := 0, qz := 0, qw := 0, tx := 8, ty := 8, tz := 8 } :=
  ⟨rfl, resolve_failure_preserves_output deadListener "cam" "world" 3
    { qx := 1, qy := 0, qz := 0, qw := 0, tx := 8, ty := 8, tz := 8 } rfl⟩

/-- The 3D integer index of a block (`BlockIndex`). -/
abbrev BlockIndex := Int × Int × Int

/-- Modelled from the spec: a voxel of the distance field holds a signed
distance value and an accumulation weight (`TsdfVoxel`; the voxblox core
header `voxblox/core/map.h` is not part of the excerpt). -/
structure TsdfVoxel where
  distance : ℚ
  weight : ℚ
deriving DecidableEq, Inhabited

/-- Modelled from the spec: a block owns a fixed-length ordered sequence
of voxels addressable by linear index, together with its spatial origin
(`TsdfBlock`; not part of the excerpt). -/
structure TsdfBlock where
  origin : ℚ × ℚ × ℚ
  voxels : List TsdfVoxel
deriving DecidableEq, Inhabited

/-- Modelled from the spec: decompose a voxel linear index into its
integer grid offsets within the block, x fastest (the spec fixes only
that every offset combination occurs exactly once and the index order
`0..V-1` is ascending). -/
def linearIndexToOffset (vps i : Nat) : Nat × Nat × Nat :=
  (i % vps, i / vps % vps, i / (vps * vps))

/-- Modelled from the spec: `Block::getTsdfVoxelByLinearIndex` — the
voxel at a linear index (total here via a default voxel; in the source
the index is always in range by the map invariant). -/
def TsdfBlock.getTsdfVoxelByLinearIndex (b : TsdfBlock) (i : Nat) : TsdfVoxel :=
  b.voxels.getD i default

/-- Modelled from the spec: `Block::getCoordinatesOfTsdfVoxelByLinearIndex`
— the world-space coordinate of a voxel, the block's origin offset by
`linearIndexToOffset(i) * voxelSize`. -/
def TsdfBlock.getCoordinatesOfTsdfVoxelByLinearIndex (b : TsdfBlock)
    (voxel_size : ℚ) (vps i : Nat) : ℚ × ℚ × ℚ :=
  let o := linearIndexToOffset vps i
  (b.origin.1 + (o.1 : ℚ) * voxel_size,
   b.origin.2.1 + (o.2.1 : ℚ) * voxel_size,
   b.origin.2.2 + (o.2.2 : ℚ) * voxel_size)

/-- Modelled from the spec: the sparse volumetric map — configuration
(voxels per side, voxel size) plus the allocated blocks as a keyed
sequence with unique keys and stable order (`TsdfMap`; not part of the
excerpt). -/
structure TsdfMap where
  voxels_per_side : Nat
  voxel_size : ℚ
  blocks : List (BlockIndex × TsdfBlock)
deriving DecidableEq, Inhabited

/-- Modelled from the spec: `TsdfMap::getNumberOfAllocatedBlocks`. -/
def TsdfMap.getNumberOfAllocatedBlocks (m : TsdfMap) : Nat :=
  m.blocks.length

/-- Modelled from the spec: `TsdfMap::getVoxelsPerBlock` =
voxelsPerSide cubed. -/
def TsdfMap.getVoxelsPerBlock (m : TsdfMap) : Nat :=
  m.voxels_per_side ^ 3

/-- Modelled from the spec: `TsdfMap::getAllAllocatedBlocks` — the block
indices in the map's stable iteration order. -/
def TsdfMap.getAllAllocatedBlocks (m : TsdfMap) : List BlockIndex :=
  m.blocks.map Prod.fst

/-- First block stored under a key (keys are unique in a well-formed
map); total via a default block. -/
def findBlock (blocks : List (BlockIndex × TsdfBlock)) (idx : BlockIndex) : TsdfBlock :=
  match blocks with
  | [] => default
  | (k, b) :: rest => if k = idx then b else findBlock rest idx

/-- Modelled from the spec: `TsdfMap::getBlockByIndex`. -/
def TsdfMap.getBlockByIndex (m : TsdfMap) (idx : BlockIndex) : TsdfBlock :=
  findBlock m.blocks idx

/-- One exported point, `pcl::PointXYZI`: position plus the voxel's
distance as intensity. -/
structure PointXYZI where
  x : ℚ
  y : ℚ
  z : ℚ
  intensity : ℚ
deriving DecidableEq, Inhabited

/-- Declared in `publishMarkers` (voxblox_node.cc:102) but never used by
the loop — kept to mirror the source. -/
def max_distance : ℚ := 1/2

/-- The voxel-traversal loop of `VoxbloxNode::publishMarkers`
(voxblox_node.cc:92-119): for every allocated block, for every voxel
linear index `0..voxelsPerBlock-1`, append one point whose position is
the voxel's coordinate and whose intensity is its distance. -/
def exportPoints (m : TsdfMap) : List PointXYZI :=
  let num_voxels_per_block := m.getVoxelsPerBlock
  (m.getAllAllocatedBlocks).flatMap fun index =>
    let block := m.getBlockByIndex index
    (List.range num_voxels_per_block).map fun i =>
      let distance := (block.getTsdfVoxelByLinearIndex i).distance
      let coord := block.getCoordinatesOfTsdfVoxelByLinearIndex
        m.voxel_size m.voxels_per_side i
      { x := coord.1, y := coord.2.1, z := coord.2.2, intensity := distance }

/-- Result of a `publishMarkers` call: either the fatal `CHECK` failure
(process abort) or the published point sequence. -/
inductive ExportOutcome where
  | fatal (msg : String)
  | ok (points : List PointXYZI)
deriving DecidableEq

/-- The node state the embedded functions touch: the world frame name
and the (possibly unallocated) TSDF map behind `tsdf_map_`. -/
structure VoxbloxNode where
  world_frame : String
  tsdf_map : Option TsdfMap
deriving DecidableEq

/-- The `VoxbloxNode` constructor (voxblox_node.cc:20-35): world frame
`"world"`, a fresh 16-voxels-per-side, 0.2-voxel-size map with no
allocated blocks. -/
def VoxbloxNode.init : VoxbloxNode :=
  { world_frame := "world"
    tsdf_map := some { voxels_per_side := 16, voxel_size := 1/5, blocks := [] } }

/-- The exporter `VoxbloxNode::publishMarkers` (voxblox_node.cc:83-123): `CHECK` the
map is allocated (fatal abort otherwise), then build and publish the
point cloud.  The returned node is the state after the call. -/
def publishMarkers (node : VoxbloxNode) : ExportOutcome × VoxbloxNode :=
  match node.tsdf_map with
  | none => (ExportOutcome.fatal "TSDF map not allocated.", node)
  | some m => (ExportOutcome.ok (exportPoints m), node)

/-- The header fields of an incoming `sensor_msgs::PointCloud2` that the
node reads. -/
structure PointCloud2 where
  frame_id : String
  stamp : Nat
deriving DecidableEq

/-- The callback `VoxbloxNode::insertPointcloudWithTf` (voxblox_node.cc:68-81):
resolve the sensor pose; on success the integrator call is commented out
in the source, so in either branch nothing is inserted.  Returns the
node state after the call and the emitted log. -/
def insertPointcloudWithTf (listener : TfProvider) (node : VoxbloxNode)
    (pointcloud : PointCloud2) : VoxbloxNode × List LogEvent :=
  let r := lookupTransform listener pointcloud.frame_id node.world_frame
    pointcloud.stamp default
  if r.success then
    -- INTEGRATOR CALL BELOW (commented out in the source):
    -- insertPointcloud(sensor_to_world, pointcloud);
    (node, r.log)
  else
    (node, r.log)

/-- C4: the export always has exactly
`numberOfAllocatedBlocks * voxelsPerBlock` points; in particular a map
with zero allocated blocks exports the empty sequence. -/
theorem exportPoints_length (m : TsdfMap) :
    (exportPoints m).length =
      m.getNumberOfAllocatedBlocks * m.getVoxelsPerBlock ∧
    (m.getNumberOfAllocatedBlocks = 0 → exportPoints m = []) := by
  constructor
  · simp only [exportPoints, TsdfMap.getAllAllocatedBlocks,
      List.length_flatMap, List.map_map, Function.comp_def,
      List.length_map, List.length_range]
    simp [List.map_const', List.sum_replicate, smul_eq_mul, mul_comm,
      TsdfMap.getNumberOfAllocatedBlocks]
  · intro h
    have hb : m.blocks = [] := List.length_eq_zero.mp h
    simp [exportPoints, TsdfMap.getAllAllocatedBlocks, hb]

/-- A two-block demonstration map (one voxel per side) used to witness
export claims on concrete data. -/
def demoMap : TsdfMap :=
  { voxels_per_side := 1
    voxel_size := 1/5
    blocks :=
      [((0, 0, 0), { origin := (0, 0, 0), voxels := [{ distance := 3, weight := 1 }] }),
       ((1, 0, 0), { origin := (1/5, 0, 0), voxels := [{ distance := -2, weight := 1 }] })] }

theorem exportPoints_length_witness :
    (exportPoints demoMap).length =
      demoMap.getNumberOfAllocatedBlocks * demoMap.getVoxelsPerBlock ∧
    (demoMap.getNumberOfAllocatedBlocks = 0 → exportPoints demoMap = []) :=
  exportPoints_length demoMap

/-- C7: calling `publishMarkers` with an unallocated map hits the fatal
`CHECK` (process abort), not a recoverable outcome; with an allocated
map the abort branch is unreachable and the call completes with the
exported points. -/
theorem publishMarkers_check_map (node : VoxbloxNode) :
    (node.tsdf_map = none →
      (publishMarkers node).1 = ExportOutcome.fatal "TSDF map not allocated.") ∧
    (∀ m, node.tsdf_map = some m →
      (publishMarkers node).1 = ExportOutcome.ok (exportPoints m)) := by
  constructor
  · intro h; simp [publishMarkers, h]
  · intro m h; simp [publishMarkers, h]

theorem publishMarkers_check_map_witness :
    (publishMarkers { world_frame := "world", tsdf_map := none }).1 =
      ExportOutcome.fatal "TSDF map not allocated." ∧
    (publishMarkers { world_frame := "world", tsdf_map := some demoMap }).1 =
      ExportOutcome.ok (exportPoints demoMap) :=
  ⟨(publishMarkers_check_map { world_frame := "world", tsdf_map := none }).1 rfl,
   (publishMarkers_check_map { world_frame := "world", tsdf_map := some demoMap }).2
     demoMap rfl⟩

/-- C8: `publishMarkers` leaves the node (hence the map) unchanged, and
a second call on the resulting state returns the identical point
sequence: export is deterministic and idempotent in the map state. -/
theorem publishMarkers_pure (node : VoxbloxNode) :
    (publishMarkers node).2 = node ∧
    (publishMarkers (publishMarkers node).2).1 = (publishMarkers node).1 := by
  cases h : node.tsdf_map <;> simp [publishMarkers, h]

/-- The exported point for voxel `i` of a block, written exactly as the
spec words it: position = block origin offset by
`linearIndexToOffset(i) * voxelSize`, intensity = the voxel's stored
distance.  Used as the right-hand side of the refinement claim C5. -/
def specExportedPoint (m : TsdfMap) (b : TsdfBlock) (i : Nat) : PointXYZI :=
  { x := b.origin.1 + ((i % m.voxels_per_side : Nat) : ℚ) * m.voxel_size
    y := b.origin.2.1 + ((i / m.voxels_per_side % m.voxels_per_side : Nat) : ℚ) * m.voxel_size
    z := b.origin.2.2 + ((i / (m.voxels_per_side * m.voxels_per_side) : Nat) : ℚ) * m.voxel_size
    intensity := (b.voxels.getD i default).distance }

/-- In a map whose block keys are unique, looking a stored key up yields
the stored block. -/
theorem findBlock_of_nodup (blocks : List (BlockIndex × TsdfBlock))
    (hnd : (blocks.map Prod.fst).Nodup) (p : BlockIndex × TsdfBlock)
    (hp : p ∈ blocks) : findBlock blocks p.1 = p.2 := by
  induction blocks with
  | nil => cases hp
  | cons q rest ih =>
      obtain ⟨k, b⟩ := q
      rw [List.map_cons, List.nodup_cons] at hnd
      rcases List.mem_cons.mp hp with h | h
      · subst h
        simp [findBlock]
      · have hne : k ≠ p.1 := by
          intro hk
          apply hnd.1
          rw [hk]
          exact List.mem_map.mpr ⟨p, h, rfl⟩
        simp only [findBlock, if_neg hne]
        exact ih hnd.2 h

/-- Pointwise congruence for `flatMap` over the members of a list. -/
theorem flatMap_congr_mem {α β : Type} (l : List α) (f g : α → List β)
    (h : ∀ a ∈ l, f a = g a) : l.flatMap f = l.flatMap g := by
  induction l with
  | nil => rfl
  | cons a t ih =>
      simp only [List.flatMap_cons]
      rw [h a (List.mem_cons_self a t), ih fun x hx => h x (List.mem_cons_of_mem a hx)]

/-- C5: the export enumerates, block by block, the voxel linear indices
`0..V-1` in ascending order (`List.range`) and appends for each voxel
exactly the point the spec describes — position from the block origin
and voxel size, intensity the stored distance — with no filtering by
distance magnitude (the unused `max_distance` constant never appears in
the traversal). -/
theorem exportPoints_enumeration (m : TsdfMap)
    (hnd : (m.blocks.map Prod.fst).Nodup) :
    exportPoints m = m.blocks.flatMap fun p =>
      (List.range m.getVoxelsPerBlock).map (specExportedPoint m p.2) := by
  unfold exportPoints
  rw [TsdfMap.getAllAllocatedBlocks, List.flatMap_map]
  refine flatMap_congr_mem m.blocks _ _ fun p hp => ?_
  rw [show m.getBlockByIndex p.1 = p.2 from findBlock_of_nodup m.blocks hnd p hp]
  rfl

theorem exportPoints_enumeration_witness :
    (demoMap.blocks.map Prod.fst).Nodup ∧
    exportPoints demoMap = demoMap.blocks.flatMap fun p =>
      (List.range demoMap.getVoxelsPerBlock).map (specExportedPoint demoMap p.2) :=
  ⟨by decide, exportPoints_enumeration demoMap (by decide)⟩

/-- The concrete scenario map of the spec, §8: voxel size `0.2`, 16
voxels per side, a single block at index `(0,0,0)` with origin
`(0,0,0)` whose 4096 voxels all store distance `0.5`. -/
def scenarioBlock : TsdfBlock :=
  { origin := (0, 0, 0)
    voxels := List.replicate 4096 { distance := 1/2, weight := 0 } }

def scenarioMap : TsdfMap :=
  { voxels_per_side := 16
    voxel_size := 1/5
    blocks := [((0, 0, 0), scenarioBlock)] }

/-- The point the scenario export produces for linear index `i`. -/
def scenarioPoint (i : Nat) : PointXYZI :=
  { x := ((i % 16 : Nat) : ℚ) * (1/5)
    y := ((i / 16 % 16 : Nat) : ℚ) * (1/5)
    z := ((i / 256 : Nat) : ℚ) * (1/5)
    intensity := 1/2 }

/-- Closed form of the scenario export: one point per linear index
`0..4095`. -/
theorem exportPoints_scenarioMap :
    exportPoints scenarioMap = (List.range 4096).map scenarioPoint := by
  have hv : scenarioMap.getVoxelsPerBlock = 4096 := by
    simp [TsdfMap.getVoxelsPerBlock, scenarioMap]
  unfold exportPoints
  rw [hv]
  have hb : scenarioMap.getAllAllocatedBlocks = [((0 : Int), (0 : Int), (0 : Int))] := rfl
  rw [hb, List.flatMap_cons, List.flatMap_nil, List.append_nil]
  refine List.map_congr_left fun i hi => ?_
  have hi4 : i < 4096 := List.mem_range.mp hi
  have hblk : scenarioMap.getBlockByIndex ((0 : Int), (0 : Int), (0 : Int)) = scenarioBlock := rfl
  rw [hblk]
  simp only [TsdfBlock.getTsdfVoxelByLinearIndex,
    TsdfBlock.getCoordinatesOfTsdfVoxelByLinearIndex, linearIndexToOffset,
    scenarioBlock, scenarioMap, scenarioPoint, List.getD]
  norm_num [List.getElem?_replicate, hi4]

/-- C6: in the spec's concrete scenario the export has exactly 4096
points, every intensity is `0.5`, and each position of the grid
`{0, 0.2, ..., 3.0}³` (i.e. `(a*0.2, b*0.2, c*0.2)` for
`a, b, c < 16`) occurs exactly once. -/
theorem exportPoints_scenario_grid (a b c : Nat)
    (ha : a < 16) (hb : b < 16) (hc : c < 16) :
    (exportPoints scenarioMap).length = 4096 ∧
    (∀ p ∈ exportPoints scenarioMap, p.intensity = 1/2) ∧
    (exportPoints scenarioMap).count
      { x := (a : ℚ) * (1/5), y := (b : ℚ) * (1/5), z := (c : ℚ) * (1/5),
        intensity := 1/2 } = 1 := by
  rw [exportPoints_scenarioMap]
  refine ⟨by simp, fun p hp => ?_, ?_⟩
  · obtain ⟨i, _, hip⟩ := List.mem_map.mp hp
    rw [← hip]
    rfl
  · have c5 : ((1 : ℚ)/5) ≠ 0 := by norm_num
    have hinj : ∀ i ∈ List.range 4096, ∀ j ∈ List.range 4096,
        scenarioPoint i = scenarioPoint j → i = j := by
      intro i hi j hj hij
      rw [List.mem_range] at hi hj
      have hx := congrArg PointXYZI.x hij
      have hy := congrArg PointXYZI.y hij
      have hz := congrArg PointXYZI.z hij
      simp only [scenarioPoint] at hx hy hz
      have e1 : i % 16 = j % 16 := by exact_mod_cast mul_right_cancel₀ c5 hx
      have e2 : i / 16 % 16 = j / 16 % 16 := by exact_mod_cast mul_right_cancel₀ c5 hy
      have e3 : i / 256 = j / 256 := by exact_mod_cast mul_right_cancel₀ c5 hz
      omega
    have hnodup : ((List.range 4096).map scenarioPoint).Nodup :=
      (List.nodup_range 4096).map_on hinj
    have hidx : a + 16 * b + 256 * c < 4096 := by omega
    have heq : scenarioPoint (a + 16 * b + 256 * c) =
        { x := (a : ℚ) * (1/5), y := (b : ℚ) * (1/5), z := (c : ℚ) * (1/5),
          intensity := 1/2 } := by
      have h1 : (a + 16 * b + 256 * c) % 16 = a := by omega
      have h2 : (a + 16 * b + 256 * c) / 16 % 16 = b := by omega
      have h3 : (a + 16 * b + 256 * c) / 256 = c := by omega
      simp only [scenarioPoint, h1, h2, h3]
    have hmem : scenarioPoint (a + 16 * b + 256 * c) ∈
        (List.range 4096).map scenarioPoint :=
      List.mem_map_of_mem _ (List.mem_range.mpr hidx)
    rw [← heq]
    exact List.count_eq_one_of_mem hnodup hmem

theorem exportPoints_scenario_grid_witness :
    (15 < 16 ∧ 0 < 16 ∧ 7 < 16) ∧
    ((exportPoints scenarioMap).length = 4096 ∧
     (∀ p ∈ exportPoints scenarioMap, p.intensity = 1/2) ∧
     (exportPoints scenarioMap).count
       { x := ((15 : Nat) : ℚ) * (1/5), y := ((0 : Nat) : ℚ) * (1/5),
         z := ((7 : Nat) : ℚ) * (1/5), intensity := 1/2 } = 1) :=
  ⟨by decide,
   exportPoints_scenario_grid 15 0 7 (by decide) (by decide) (by decide)⟩

/-- C10: processing an incoming point cloud never changes the node
state (the integrator call is absent from the source), whether pose
resolution succeeds or fails; only log output is produced. -/
theorem insertPointcloudWithTf_no_state_change (listener : TfProvider)
    (node : VoxbloxNode) (pointcloud : PointCloud2) :
    (insertPointcloudWithTf listener node pointcloud).1 = node := by
  simp [insertPointcloudWithTf]

end Voxblox
